import Mathlib

set_option maxHeartbeats 1000000
set_option maxRecDepth 4000

/-
Verification development for the chatbot-api repository.

The file embeds the response-decision pipeline of app/services/ai_service.py
as executable Lean definitions and proves properties of them.

Modelling conventions:
- Python str is modelled by Lean String; character-level work happens on
  String.data (a list of Char).  Python str.lower is modelled by mapping
  Char.toLower, which agrees with Python on the ASCII data this service
  manipulates.
- Machine-level aspects that the claims do not touch (wall-clock
  processing_time, uuid generation, the HTTP layer) are either omitted
  (processing_time) or passed in as oracle parameters (the fresh uuid string,
  the model outcome).
- Exceptions are modelled with Option / an explicit outcome type: the model
  invocation is an oracle from the prompt to a GenOutcome, where
  GenOutcome.failure is an exception raised inside the try block of
  AIService.generate response (caught there), and GenOutcome.escaped is an
  exception that reaches the try/except of AIService.chat itself.
-/

/-- Python str.isspace-style whitespace test used by str.strip and str.split. -/
def pyIsSpace (c : Char) : Bool :=
  c = ' ' || c = '\t' || c = '\n' || c = '\x0b' || c = '\x0c' || c = '\r'

/-- Python str.lower, modelled on ASCII via Char.toLower. -/
def pyLower (s : String) : String :=
  ⟨s.data.map Char.toLower⟩

/-- Python str.strip with no argument: trim whitespace from both ends. -/
def pyStrip (s : String) : String :=
  ⟨((s.data.dropWhile pyIsSpace).reverse.dropWhile pyIsSpace).reverse⟩

/-- Python slice s[a:b] for non-negative bounds; out-of-range bounds clamp. -/
def pySlice (s : String) (a b : Nat) : String :=
  ⟨(s.data.take b).drop a⟩

/-- Index of the first occurrence of needle in hay, if any.  This is Python
str.find restricted to the found case (the source always guards find calls
with an in-test, so the not-found -1 never flows into arithmetic). -/
def findSub (needle : List Char) : List Char → Option Nat
  | [] => if needle.isEmpty then some 0 else none
  | c :: t =>
    if needle.isPrefixOf (c :: t) then some 0
    else (findSub needle t).map (fun i => i + 1)

/-- Python s.find(sub) as an Option. -/
def pyFind (sub s : String) : Option Nat :=
  findSub sub.data s.data

/-- Python s.find(sub, start) as an Option. -/
def pyFindFrom (sub s : String) (start : Nat) : Option Nat :=
  (findSub sub.data (s.data.drop start)).map (fun i => start + i)

/-- Python membership test sub in s, via find. -/
def strIn (sub s : String) : Bool :=
  (pyFind sub s).isSome

/-- The bound end = s.find(".", start) if "." in s[start:] else len(s)
used throughout AIService.get direct answer. -/
def dotEnd (s : String) (start : Nat) : Nat :=
  match pyFindFrom (".") s start with
  | some e => e
  | none => s.data.length

/-- Fuel-driven worker for removeAll; fuel at least the list length makes the
fuel-exhausted branch unreachable, and keeps the recursion structural. -/
def removeAllAux (old : List Char) : Nat → List Char → List Char
  | _, [] => []
  | 0, l => l
  | fuel + 1, c :: rest =>
    if old.isPrefixOf (c :: rest) && !old.isEmpty then
      removeAllAux old fuel (List.drop (old.length - 1) rest)
    else c :: removeAllAux old fuel rest

/-- Left-to-right removal of every non-overlapping occurrence of old. -/
def removeAll (old s : List Char) : List Char :=
  removeAllAux old s.length s

/-- Python s.replace(sub, ""): delete every occurrence of sub from s.
Replacing the empty string by the empty string leaves s unchanged,
matching Python. -/
def pyRemove (s sub : String) : String :=
  ⟨removeAll sub.data s.data⟩

/-- Worker for pyWordCount: count maximal runs of non-whitespace. -/
def wordCountAux : List Char → Bool → Nat
  | [], _ => 0
  | c :: rest, inWord =>
    if pyIsSpace c then wordCountAux rest false
    else (if inWord then 0 else 1) + wordCountAux rest true

/-- Python len(s.split()): number of whitespace-separated words. -/
def pyWordCount (s : String) : Nat :=
  wordCountAux s.data false

/-- Split a character list at every comma (Python s.split(",")). -/
def splitCommaList : List Char → List (List Char)
  | [] => [[]]
  | c :: rest =>
    let r := splitCommaList rest
    if c = ',' then [] :: r
    else
      match r with
      | [] => [[c]]
      | h :: t => (c :: h) :: t

/-- Python s.split(","). -/
def pySplitComma (s : String) : List String :=
  (splitCommaList s.data).map (fun l => ⟨l⟩)

/-- Python ", ".join(parts), as used for contact info and allowed topics. -/
def joinComma : List String → String
  | [] => ("")
  | [x] => x
  | x :: y :: rest => x ++ (", ") ++ joinComma (y :: rest)

/-- Python "\n".join(parts), as used for the conversation context. -/
def joinNl : List String → String
  | [] => ("")
  | [x] => x
  | x :: y :: rest => x ++ ("\n") ++ joinNl (y :: rest)

/-- The tail of a list keeping at most its last n elements (Python l[-n:],
written as an unconditional drop; for lists of length at most n it drops
nothing). -/
def lastN (n : Nat) (l : List α) : List α :=
  l.drop (l.length - n)

/-- One chat message, from app/models/chat.py (ChatMessage).  The optional
timestamp field defaults to None and is never set by the service, so it is
omitted from the embedding. -/
structure ChatMessage where
  role : String
  content : String
deriving DecidableEq, Repr

/-- The in-memory conversation map self.conversation_memory, modelled as an
association list with the usual Python dict operations. -/
abbrev Mem := List (String × List ChatMessage)

/-- Dict lookup: mem.get(cid) as an Option. -/
def memGet : Mem → String → Option (List ChatMessage)
  | [], _ => none
  | (k, v) :: rest, cid => if k = cid then some v else memGet rest cid

/-- Dict assignment mem[cid] = v: replace in place, or append a new key. -/
def memSet : Mem → String → List ChatMessage → Mem
  | [], cid, v => [(cid, v)]
  | (k, w) :: rest, cid, v =>
    if k = cid then (k, v) :: rest else (k, w) :: memSet rest cid v

/-- Dict deletion del mem[cid]. -/
def memDel : Mem → String → Mem
  | [], _ => []
  | (k, v) :: rest, cid =>
    if k = cid then memDel rest cid else (k, v) :: memDel rest cid

/-- The configuration fields of app/core/config.py consumed by the service. -/
structure Settings where
  MODEL_NAME : String
  BUSINESS_NAME : String
  BUSINESS_TYPE : String
  BUSINESS_DETAILS : String
  ALLOWED_TOPICS : String
  RESTRICTED_TOPICS : String
deriving DecidableEq, Repr

/-- The business_config record built by AIService.load business config. -/
structure BusinessConfig where
  name : String
  type : String
  allowed_topics : List String
  restricted_topics : List String
deriving DecidableEq, Repr

/-- AIService.load business config: split the comma-separated topic settings
and strip each entry. -/
def load_business_config (s : Settings) : BusinessConfig :=
  { name := s.BUSINESS_NAME
    type := s.BUSINESS_TYPE
    allowed_topics := (pySplitComma s.ALLOWED_TOPICS).map pyStrip
    restricted_topics := (pySplitComma s.RESTRICTED_TOPICS).map pyStrip }

/-- The redirect message produced for a restricted topic match. -/
def redirectFor (btype topic : String) : String :=
  ("I can\x27t provide ") ++ topic ++ (". Let me help you with ") ++ btype
    ++ (" related questions instead.")

/-- The loop body of AIService.is on topic over the restricted topics. -/
def scanRestricted (btype ml : String) : List String → Bool × Option String
  | [] => (true, none)
  | t :: rest =>
    if strIn (pyLower t) ml then (false, some (redirectFor btype t))
    else scanRestricted btype ml rest

/-- AIService.is on topic: reject the message if any restricted phrase occurs
case-insensitively as a substring, producing the redirect message. -/
def is_on_topic (cfg : BusinessConfig) (message : String) : Bool × Option String :=
  scanRestricted cfg.type (pyLower message) cfg.restricted_topics

/-- The keyword patterns table of AIService.get direct answer, in its declared
order (Python dict literals iterate in insertion order). -/
def patterns : List (String × List String) :=
  [ (("hours"), [("hours"), ("open"), ("close"), ("when are you open"), ("what time")])
  , (("location"), [("location"), ("address"), ("where are you"), ("where located")])
  , (("contact"), [("contact"), ("phone"), ("email"), ("call"), ("reach")])
  , (("pricing"), [("price"), ("cost"), ("how much"), ("pricing"), ("plan")])
  , (("shipping"), [("shipping"), ("delivery"), ("ship")])
  , (("returns"), [("return"), ("refund"), ("money back")])
  , (("services"), [("service"), ("what do you do"), ("what do you offer")]) ]

/-- Hours branch: if "hours:" occurs in the lowered details, answer with the
details text from that anchor up to the next dot (or the end), stripped.  The
in-test and the subsequent find of the source are fused into one Option
match; so for every anchored branch below. -/
def answerHours (details : String) : Option String :=
  match pyFind ("hours:") (pyLower details) with
  | some start =>
    some (("Our ") ++ pyStrip (pySlice details start (dotEnd details start))
      ++ (". Is there anything else you\x27d like to know?"))
  | none => none

/-- Location branch: the anchor label "location:" (9 characters) is skipped
before slicing, per details_full[start+9:end] in the source. -/
def answerLocation (details : String) : Option String :=
  match pyFind ("location:") (pyLower details) with
  | some start =>
    some (("We\x27re located at: ")
      ++ pyStrip (pySlice details (start + 9) (dotEnd details start))
      ++ (". Feel free to visit us!"))
  | none => none

/-- Contact branch: triggered when "phone" or "email" occurs in the lowered
details; phone is cut at the next comma and email at the next dot, each only
when that delimiter occurs within a 50-character window from the anchor,
otherwise a fixed 40-character window is taken. -/
def answerContact (details : String) : Option String :=
  let bd := pyLower details
  if strIn ("phone") bd || strIn ("email") bd then
    let phonePart : List String :=
      match pyFind ("phone") bd with
      | some start =>
        let e :=
          if strIn (",") (pySlice details start (start + 50)) then
            (pyFindFrom (",") details start).getD (start + 40)
          else start + 40
        [pyStrip (pySlice details start e)]
      | none => []
    let emailPart : List String :=
      match pyFind ("email") bd with
      | some start =>
        let e :=
          if strIn (".") (pySlice details start (start + 50)) then
            (pyFindFrom (".") details start).getD (start + 40)
          else start + 40
        [pyStrip (pySlice details start e)]
      | none => []
    some (("You can reach us at: ") ++ joinComma (phonePart ++ emailPart)
      ++ (". We\x27re here to help!"))
  else none

/-- Pricing branch, anchored at "pricing:". -/
def answerPricing (details : String) : Option String :=
  match pyFind ("pricing:") (pyLower details) with
  | some start =>
    some (("Our ") ++ pyStrip (pySlice details start (dotEnd details start))
      ++ (". Would you like more details on any specific plan?"))
  | none => none

/-- Shipping branch, anchored at "shipping:". -/
def answerShipping (details : String) : Option String :=
  match pyFind ("shipping:") (pyLower details) with
  | some start =>
    some (("Regarding ") ++ pyStrip (pySlice details start (dotEnd details start))
      ++ (". Can I help you with anything else?"))
  | none => none

/-- Returns branch, anchored at the literal "return". -/
def answerReturns (details : String) : Option String :=
  match pyFind ("return") (pyLower details) with
  | some start =>
    some (("Our return policy: ")
      ++ pyStrip (pySlice details start (dotEnd details start))
      ++ (". Let me know if you have questions!"))
  | none => none

/-- Services branch: like location, the 9-character label "services:" is
skipped before slicing. -/
def answerServices (details : String) : Option String :=
  match pyFind ("services:") (pyLower details) with
  | some start =>
    some (("We ") ++ pyStrip (pySlice details (start + 9) (dotEnd details start))
      ++ (". What can I help you with today?"))
  | none => none

/-- The chain of topic-keyed conditionals inside the pattern loop of
AIService.get direct answer; none means the loop body falls through to the
next topic. -/
def tryTopic (details topic : String) : Option String :=
  if topic = ("hours") then answerHours details
  else if topic = ("location") then answerLocation details
  else if topic = ("contact") then answerContact details
  else if topic = ("pricing") then answerPricing details
  else if topic = ("shipping") then answerShipping details
  else if topic = ("returns") then answerReturns details
  else if topic = ("services") then answerServices details
  else none

/-- any(keyword in message_lower for keyword in keywords). -/
def keywordHit (message_lower : String) (kws : List String) : Bool :=
  kws.any (fun k => strIn k message_lower)

/-- The pattern loop of AIService.get direct answer: topics in declared order;
a topic whose keywords miss, or whose keyed branch produces nothing, falls
through to the next topic. -/
def scanTopics (details message_lower : String) :
    List (String × List String) → Option String
  | [] => none
  | (topic, kws) :: rest =>
    if keywordHit message_lower kws then
      match tryTopic details topic with
      | some a => some a
      | none => scanTopics details message_lower rest
    else scanTopics details message_lower rest

/-- AIService.get direct answer. -/
def get_direct_answer (details message : String) : Option String :=
  scanTopics details (pyLower message) patterns

/-- AIService.build conversation context: render the last max_context turns
as Human/Assistant lines joined by newlines.  The source default for
max_context is 3; chat always uses that default. -/
def build_conversation_context (conversation_history : List ChatMessage)
    (max_context : Nat) : String :=
  if conversation_history = [] then ("")
  else
    let recent := conversation_history.drop (conversation_history.length - max_context)
    joinNl (recent.map (fun m =>
      (if m.role = ("user") then ("Human") else ("Assistant")) ++ (": ") ++ m.content))

/-- AIService.create business prompt: the fixed template around the business
profile, details blob, context block and user message. -/
def create_business_prompt (cfg : BusinessConfig) (details user_message context : String) :
    String :=
  ("You are a helpful assistant for ") ++ cfg.name ++ (", a ") ++ cfg.type
    ++ (".\n\nBUSINESS INFORMATION:\n") ++ details
    ++ ("\n\nGUIDELINES:\n- Be professional, helpful, and friendly\n- Use the business information above to answer questions accurately\n- Focus on topics related to: ")
    ++ joinComma cfg.allowed_topics
    ++ ("\n- If asked about unrelated topics, politely redirect to your area of expertise\n- Keep responses concise and helpful\n- End with a helpful question when appropriate\n\nCONVERSATION CONTEXT:\n")
    ++ context ++ ("\n\nUSER: ") ++ user_message ++ ("\nASSISTANT:")

/-- Outcome of one model invocation, as an oracle value.
candidates is the list the pipeline returned; failure is an exception raised
inside the try block of AIService.generate response (caught there); escaped
is an exception that reaches the try/except of AIService.chat itself. -/
inductive GenOutcome where
  | candidates (texts : List String)
  | failure
  | escaped
deriving DecidableEq, Repr

/-- Fallback sentence returned when the pipeline yields no candidates, and by
the empty-input guard of AIService.clean response. -/
def rephraseFallback : String :=
  ("I\x27m not sure how to respond to that. Could you please rephrase your question?")

/-- Canned apology returned by the except branch of AIService.generate
response. -/
def troubleProcessing : String :=
  ("I apologize, but I\x27m having trouble processing your request right now.")

/-- Canned apology of the except branch of AIService.chat. -/
def technicalDifficulties : String :=
  ("I apologize, but I\x27m experiencing technical difficulties. Please try again in a moment.")

/-- Fallback substituted by AIService.clean response when cleaning empties
the text. -/
def understandFallback : String :=
  ("I understand your question. How can I help you further?")

/-- AIService.generate response: first candidate if the pipeline returned a
non-empty list, a canned rephrase prompt for an empty list, the canned
apology if the invocation raised inside its own try, and none for an
exception that escapes to the caller. -/
def generate_response : GenOutcome → Option String
  | GenOutcome.candidates [] => some rephraseFallback
  | GenOutcome.candidates (t :: _) => some t
  | GenOutcome.failure => some troubleProcessing
  | GenOutcome.escaped => none

/-- The fixed role-label list of AIService.clean response. -/
def roleLabels : List String :=
  [("ASSISTANT:"), ("Assistant:"), ("AI:"), ("Bot:")]

/-- Step 1 of AIService.clean response: delete every literal occurrence of
the original message, then strip. -/
def cleanStep1 (response original_message : String) : String :=
  pyStrip (pyRemove response original_message)

/-- Step 2: the label-stripping loop; each label is removed (and the result
re-stripped) when it is a prefix of the current text, in list order. -/
def cleanStep2 (s : String) : String :=
  roleLabels.foldl
    (fun acc p =>
      if p.data.isPrefixOf acc.data then pyStrip ⟨acc.data.drop p.data.length⟩
      else acc) s

/-- Step 3: substitute the canned fallback if cleaning emptied the text. -/
def cleanStep3 (s : String) : String :=
  if s = ("") then understandFallback else s

/-- Step 4: truncate to 500 characters, appending an ellipsis if truncated. -/
def cleanStep4 (s : String) : String :=
  if s.data.length > 500 then ⟨s.data.take 500⟩ ++ ("...") else s

/-- AIService.clean response.  The let chain mirrors the successive
reassignments of cleaned in the source; an empty raw response short-circuits
to the rephrase fallback before any of the steps. -/
def clean_response (response original_message : String) : String :=
  if response = ("") then rephraseFallback
  else
    let cleaned := cleanStep1 response original_message
    let cleaned := cleanStep2 cleaned
    let cleaned := cleanStep3 cleaned
    cleanStep4 cleaned

/-- The ChatResult dictionary returned by AIService.chat.  The source also
carries processing_time (wall-clock float), which the claims do not touch
and floating point cannot be shallowly embedded, so it is omitted. -/
structure ChatResult where
  response : String
  conversation_id : String
  model_used : String
  tokens_used : Nat
deriving DecidableEq, Repr

/-- The conversation-id resolution at the top of AIService.chat:
if not conversation_id, generate a fresh uuid (supplied here as the oracle
argument fresh); Python falsiness makes both None and the empty string
trigger regeneration. -/
def resolveCid (fresh : String) : Option String → String
  | none => fresh
  | some s => if s = ("") then fresh else s

/-- Bound the per-conversation history to its last 10 entries, per
the final truncation in AIService.chat. -/
def capTurns (l : List ChatMessage) : List ChatMessage :=
  if l.length > 10 then l.drop (l.length - 10) else l

/-- The memory update of the successful generation path of AIService.chat:
default the conversation to empty, extend with the user and assistant turns,
then keep only the last 10 entries. -/
def memStore (mem : Mem) (cid message cleaned : String) : Mem :=
  let old := (memGet mem cid).getD []
  let appended :=
    old ++ [{ role := ("user"), content := message },
            { role := ("assistant"), content := cleaned }]
  memSet mem cid (capTurns appended)

/-- The context assembly at the top of the try block of AIService.chat:
a truthy conversation_history yields the rendered context, and a truthy
extra context string is appended on its own line. -/
def contextBlock (conversation_history : Option (List ChatMessage))
    (context : Option String) : String :=
  let base :=
    match conversation_history with
    | some h => if h = [] then ("") else build_conversation_context h 3
    | none => ("")
  match context with
  | some c => if c = ("") then base else base ++ ("\nAdditional Context: ") ++ c
  | none => base

/-- The try/except block of AIService.chat: compose the prompt, invoke the
model, clean, store, and build the result; a generation failure that escapes
to the except branch yields the error-handler result and leaves memory
untouched. -/
def chatGenerate (cfg : BusinessConfig) (details model_name : String)
    (gen : String → GenOutcome) (mem : Mem) (cid message : String)
    (conversation_history : Option (List ChatMessage)) (context : Option String) :
    ChatResult × Mem :=
  let prompt := create_business_prompt cfg details message
    (contextBlock conversation_history context)
  match generate_response (gen prompt) with
  | some raw =>
    let cleaned := clean_response raw message
    ({ response := cleaned, conversation_id := cid, model_used := model_name,
       tokens_used := pyWordCount cleaned }, memStore mem cid message cleaned)
  | none =>
    ({ response := technicalDifficulties, conversation_id := cid,
       model_used := ("error_handler"), tokens_used := 0 }, mem)

/-- AIService.chat.  State threading is explicit: the pair carries the
returned ChatResult and the conversation memory after the call.  The model
is the oracle gen from the composed prompt to a GenOutcome, and fresh is the
uuid4 string used when the caller supplies no (or an empty) conversation
id. -/
def chat (cfg : BusinessConfig) (details model_name : String)
    (gen : String → GenOutcome) (fresh : String) (mem : Mem) (message : String)
    (conversation_id : Option String)
    (conversation_history : Option (List ChatMessage)) (context : Option String) :
    ChatResult × Mem :=
  let cid := resolveCid fresh conversation_id
  match is_on_topic cfg message with
  | (false, redirect) =>
    ({ response := redirect.getD (""), conversation_id := cid,
       model_used := ("business_rules"), tokens_used := 0 }, mem)
  | (true, _) =>
    match get_direct_answer details message with
    | some d =>
      if d = ("") then
        chatGenerate cfg details model_name gen mem cid message
          conversation_history context
      else
        ({ response := d, conversation_id := cid,
           model_used := ("business_knowledge"), tokens_used := pyWordCount d }, mem)
    | none =>
      chatGenerate cfg details model_name gen mem cid message
        conversation_history context

/-- AIService.get conversation history: empty list for unknown ids. -/
def get_conversation_history (mem : Mem) (conversation_id : String) :
    List ChatMessage :=
  (memGet mem conversation_id).getD []

/-- AIService.clear conversation: delete the entry when present, otherwise do
nothing. -/
def clear_conversation (mem : Mem) (conversation_id : String) : Mem :=
  if (memGet mem conversation_id).isSome then memDel mem conversation_id else mem

/-- One chat invocation of a repeated-call experiment: the message together
with the per-call optional history, optional extra context and model
oracle. -/
structure GenCall where
  message : String
  conversation_history : Option (List ChatMessage)
  context : Option String
  gen : String → GenOutcome

/-- The prompt a given call feeds to the model. -/
def promptOf (cfg : BusinessConfig) (details : String) (c : GenCall) : String :=
  create_business_prompt cfg details c.message
    (contextBlock c.conversation_history c.context)

/-- The raw model text a given call produces, if its invocation does not
escape. -/
def rawOf (cfg : BusinessConfig) (details : String) (c : GenCall) : Option String :=
  generate_response (c.gen (promptOf cfg details c))

/-- The cleaned response a given call stores and returns. -/
def cleanedOf (cfg : BusinessConfig) (details : String) (c : GenCall) : String :=
  clean_response ((rawOf cfg details c).getD ("")) c.message

/-- The user and assistant turns one successful generation-path call appends
to the conversation. -/
def turnPair (cfg : BusinessConfig) (details : String) (c : GenCall) :
    List ChatMessage :=
  [{ role := ("user"), content := c.message },
   { role := ("assistant"), content := cleanedOf cfg details c }]

/-- Python truthiness of the direct answer inside AIService.chat: a direct
answer is acted on only when it is a non-empty string. -/
def directTruthy (details message : String) : Bool :=
  match get_direct_answer details message with
  | some d => !(d = (""))
  | none => false

/-- A call that takes the generation path (gate passed, no truthy direct
answer) and whose model invocation does not escape the generator. -/
def successfulGen (cfg : BusinessConfig) (details : String) (c : GenCall) : Prop :=
  (is_on_topic cfg c.message).1 = true ∧
  directTruthy details c.message = false ∧
  (rawOf cfg details c).isSome = true

instance (cfg : BusinessConfig) (details : String) (c : GenCall) :
    Decidable (successfulGen cfg details c) := by
  unfold successfulGen
  infer_instance

/-- Run a sequence of chat calls against one conversation id, threading the
memory through. -/
def runChats (cfg : BusinessConfig) (details model_name fresh cid : String)
    (mem : Mem) (calls : List GenCall) : Mem :=
  calls.foldl
    (fun m c =>
      (chat cfg details model_name c.gen fresh m c.message (some cid)
        c.conversation_history c.context).2) mem

/-- Description taken from the claim text: the details-blob text from the
case-insensitive anchor occurrence up to the next dot (or the end of the
string if none), trimmed. -/
def extractDot (details anchor : String) : Option String :=
  (pyFind anchor (pyLower details)).map
    (fun start => pyStrip (pySlice details start (dotEnd details start)))

/-- Variant of extractDot that drops a label of the given length from the
front of the extracted text (the location and services branches skip their
9-character anchor labels). -/
def extractDotAfter (details anchor : String) (label : Nat) : Option String :=
  (pyFind anchor (pyLower details)).map
    (fun start => pyStrip (pySlice details (start + label) (dotEnd details start)))

/-- The default configuration of app/core/config.py, with the details blob of
the business-hours scenario. -/
def settingsHours : Settings :=
  { MODEL_NAME := ("microsoft/DialoGPT-medium")
    BUSINESS_NAME := ("Demo Business")
    BUSINESS_TYPE := ("customer service")
    BUSINESS_DETAILS := ("Hours: 9am-6pm Mon-Fri.")
    ALLOWED_TOPICS := ("general questions,product information,pricing,support")
    RESTRICTED_TOPICS := ("medical advice,legal advice,financial advice,personal information") }

/-- A minimal business configuration for concrete runs: one restricted phrase
that ordinary test messages avoid. -/
def cfgSmall : BusinessConfig :=
  { name := ("B"), type := ("biz"), allowed_topics := [],
    restricted_topics := [("zzz")] }

/-- A concrete generation-path call whose model returns one candidate. -/
def callOk : GenCall :=
  { message := ("hi"), conversation_history := none, context := none,
    gen := fun _ => GenOutcome.candidates [("ok")] }

/-- A details blob containing every anchor of the fact extractor, used to
instantiate the extractor theorems. -/
def detailsAll : String :=
  ("Hours: h. Location: x. Pricing: p. Shipping: s. return r. Services: v. Phone 1, Email e.")

theorem string_ne_empty_iff {s : String} : s ≠ ("") ↔ s.data ≠ [] := by
  rw [not_iff_not]
  exact String.ext_iff

theorem findSub_isSome_iff (n : List Char) :
    ∀ l : List Char, (findSub n l).isSome = true ↔ n <:+: l := by
  intro l
  induction l with
  | nil =>
    by_cases hn : n = []
    · subst hn; simp [findSub]
    · simp [findSub, List.isEmpty_iff, hn, List.infix_nil]
  | cons c t ih =>
    by_cases hp : n.isPrefixOf (c :: t)
    · simp only [findSub, if_pos hp, Option.isSome_some, true_iff]
      exact (List.isPrefixOf_iff_prefix.mp hp).isInfix
    · have hp' : ¬ n <+: c :: t := fun h => hp (List.isPrefixOf_iff_prefix.mpr h)
      have hmap : (Option.map (fun i => i + 1) (findSub n t)).isSome
          = (findSub n t).isSome := by
        cases findSub n t <;> rfl
      simp only [findSub, if_neg hp, hmap, ih, List.infix_cons_iff, hp', false_or]

theorem strIn_iff (sub s : String) :
    strIn sub s = true ↔ sub.data <:+: s.data := by
  unfold strIn pyFind
  exact findSub_isSome_iff sub.data s.data

theorem scanRestricted_eq (btype ml : String) (l : List String) :
    scanRestricted btype ml l =
      match l.find? (fun t => strIn (pyLower t) ml) with
      | some r => (false, some (redirectFor btype r))
      | none => (true, none) := by
  induction l with
  | nil => rfl
  | cons t rest ih =>
    by_cases hc : strIn (pyLower t) ml = true
    · simp [scanRestricted, hc, List.find?_cons_of_pos]
    · have hc' : strIn (pyLower t) ml = false := by
        cases h : strIn (pyLower t) ml
        · rfl
        · exact absurd h hc
      simp [scanRestricted, hc', List.find?_cons_of_neg, ih]

theorem scanTopics_eq (details ml : String) (l : List (String × List String)) :
    scanTopics details ml l =
      (l.find? (fun p => keywordHit ml p.2 && (tryTopic details p.1).isSome)).bind
        (fun p => tryTopic details p.1) := by
  induction l with
  | nil => rfl
  | cons p rest ih =>
    obtain ⟨topic, kws⟩ := p
    by_cases hk : keywordHit ml kws = true
    · cases ht : tryTopic details topic with
      | some a =>
        have hpred : (keywordHit ml (topic, kws).2
            && (tryTopic details (topic, kws).1).isSome) = true := by
          simp [hk, ht]
        simp [scanTopics, hk, ht, List.find?_cons_of_pos _ hpred]
      | none =>
        have hpred : ¬ ((keywordHit ml (topic, kws).2
            && (tryTopic details (topic, kws).1).isSome) = true) := by
          simp [ht]
        simp [scanTopics, hk, ht, List.find?_cons_of_neg _ hpred, ih]
    · have hk' : keywordHit ml kws = false := by
        cases h : keywordHit ml kws
        · rfl
        · exact absurd h hk
      have hpred : ¬ ((keywordHit ml (topic, kws).2
          && (tryTopic details (topic, kws).1).isSome) = true) := by
        simp [hk']
      simp [scanTopics, hk', List.find?_cons_of_neg _ hpred, ih]

theorem cat3_ne_empty (x a y : String) (hx : x.data ≠ []) : x ++ a ++ y ≠ ("") := by
  rw [string_ne_empty_iff, String.data_append, String.data_append]
  intro h
  rcases List.append_eq_nil.mp h with ⟨h1, _⟩
  rcases List.append_eq_nil.mp h1 with ⟨h2, _⟩
  exact hx h2

theorem answerHours_ne_empty {details d : String}
    (h : answerHours details = some d) : d ≠ ("") := by
  unfold answerHours at h
  split at h
  · injection h with h'
    subst h'
    exact cat3_ne_empty _ _ _ (by decide)
  · exact Option.noConfusion h

theorem answerLocation_ne_empty {details d : String}
    (h : answerLocation details = some d) : d ≠ ("") := by
  unfold answerLocation at h
  split at h
  · injection h with h'
    subst h'
    exact cat3_ne_empty _ _ _ (by decide)
  · exact Option.noConfusion h

theorem answerContact_ne_empty {details d : String}
    (h : answerContact details = some d) : d ≠ ("") := by
  simp only [answerContact] at h
  split_ifs at h
  injection h with h'
  subst h'
  exact cat3_ne_empty _ _ _ (by decide)

theorem answerPricing_ne_empty {details d : String}
    (h : answerPricing details = some d) : d ≠ ("") := by
  unfold answerPricing at h
  split at h
  · injection h with h'
    subst h'
    exact cat3_ne_empty _ _ _ (by decide)
  · exact Option.noConfusion h

theorem answerShipping_ne_empty {details d : String}
    (h : answerShipping details = some d) : d ≠ ("") := by
  unfold answerShipping at h
  split at h
  · injection h with h'
    subst h'
    exact cat3_ne_empty _ _ _ (by decide)
  · exact Option.noConfusion h

theorem answerReturns_ne_empty {details d : String}
    (h : answerReturns details = some d) : d ≠ ("") := by
  unfold answerReturns at h
  split at h
  · injection h with h'
    subst h'
    exact cat3_ne_empty _ _ _ (by decide)
  · exact Option.noConfusion h

theorem answerServices_ne_empty {details d : String}
    (h : answerServices details = some d) : d ≠ ("") := by
  unfold answerServices at h
  split at h
  · injection h with h'
    subst h'
    exact cat3_ne_empty _ _ _ (by decide)
  · exact Option.noConfusion h

theorem tryTopic_ne_empty {details topic d : String}
    (h : tryTopic details topic = some d) : d ≠ ("") := by
  unfold tryTopic at h
  split_ifs at h
  · exact answerHours_ne_empty h
  · exact answerLocation_ne_empty h
  · exact answerContact_ne_empty h
  · exact answerPricing_ne_empty h
  · exact answerShipping_ne_empty h
  · exact answerReturns_ne_empty h
  · exact answerServices_ne_empty h

theorem scanTopics_ne_empty {details ml d : String} :
    ∀ l, scanTopics details ml l = some d → d ≠ ("") := by
  intro l
  induction l with
  | nil => intro h; exact Option.noConfusion h
  | cons p rest ih =>
    obtain ⟨topic, kws⟩ := p
    intro h
    simp only [scanTopics] at h
    split_ifs at h
    · cases ht : tryTopic details topic with
      | some a =>
        rw [ht] at h
        injection h with h'
        subst h'
        exact tryTopic_ne_empty ht
      | none =>
        rw [ht] at h
        exact ih h
    · exact ih h

theorem get_direct_answer_ne_empty {details message d : String}
    (h : get_direct_answer details message = some d) : d ≠ ("") :=
  scanTopics_ne_empty _ h

theorem memGet_memSet_self (m : Mem) (cid : String) (v : List ChatMessage) :
    memGet (memSet m cid v) cid = some v := by
  induction m with
  | nil => simp [memSet, memGet]
  | cons kv rest ih =>
    obtain ⟨k, w⟩ := kv
    by_cases hk : k = cid
    · simp [memSet, memGet, hk]
    · simp [memSet, memGet, hk, ih]

theorem memGet_memDel_self (m : Mem) (cid : String) :
    memGet (memDel m cid) cid = none := by
  induction m with
  | nil => simp [memDel, memGet]
  | cons kv rest ih =>
    obtain ⟨k, w⟩ := kv
    by_cases hk : k = cid
    · simp [memDel, hk, ih]
    · simp [memDel, memGet, hk, ih]

theorem capTurns_eq_lastN (l : List ChatMessage) : capTurns l = lastN 10 l := by
  unfold capTurns lastN
  split
  · rfl
  · next h =>
    have h0 : l.length - 10 = 0 := by omega
    rw [h0, List.drop_zero]

theorem lastN_length_le (n : Nat) (l : List α) : (lastN n l).length ≤ n := by
  unfold lastN
  rw [List.length_drop]
  omega

theorem lastN_append (n : Nat) (A B : List α) :
    lastN n (lastN n A ++ B) = lastN n (A ++ B) := by
  unfold lastN
  have hk : A.length - n ≤ A.length := Nat.sub_le _ _
  rw [← List.drop_append_of_le_length hk, List.length_drop, List.drop_drop,
    List.length_append]
  congr 1
  omega

theorem chat_cid (cfg : BusinessConfig) (details model_name : String)
    (gen : String → GenOutcome) (fresh : String) (mem : Mem) (message : String)
    (cido : Option String) (hist : Option (List ChatMessage)) (ctx : Option String) :
    (chat cfg details model_name gen fresh mem message cido hist ctx).1.conversation_id
      = resolveCid fresh cido := by
  unfold chat chatGenerate
  dsimp only
  split
  · rfl
  · split
    · split
      · split
        · rfl
        · rfl
      · rfl
    · split
      · rfl
      · rfl

theorem chat_reject (cfg : BusinessConfig) (details model_name : String)
    (gen : String → GenOutcome) (fresh : String) (mem : Mem) (message : String)
    (cido : Option String) (hist : Option (List ChatMessage)) (ctx : Option String)
    (r : String) (h : is_on_topic cfg message = (false, some r)) :
    chat cfg details model_name gen fresh mem message cido hist ctx
      = ({ response := r, conversation_id := resolveCid fresh cido,
           model_used := ("business_rules"), tokens_used := 0 }, mem) := by
  unfold chat
  rw [h]
  rfl

theorem chat_direct (cfg : BusinessConfig) (details model_name : String)
    (gen : String → GenOutcome) (fresh : String) (mem : Mem) (message : String)
    (cido : Option String) (hist : Option (List ChatMessage)) (ctx : Option String)
    (d : String) (hgate : (is_on_topic cfg message).1 = true)
    (hd : get_direct_answer details message = some d) (hne : d ≠ ("")) :
    chat cfg details model_name gen fresh mem message cido hist ctx
      = ({ response := d, conversation_id := resolveCid fresh cido,
           model_used := ("business_knowledge"), tokens_used := pyWordCount d },
         mem) := by
  unfold chat
  rcases hq : is_on_topic cfg message with ⟨b, o⟩
  rw [hq] at hgate
  subst hgate
  rw [hd]
  simp [hne]

theorem directTruthy_false_cases {details message : String}
    (h : directTruthy details message = false) :
    get_direct_answer details message = none
      ∨ get_direct_answer details message = some ("") := by
  unfold directTruthy at h
  cases hd : get_direct_answer details message with
  | none => exact Or.inl rfl
  | some d =>
    rw [hd] at h
    simp at h
    exact Or.inr (h ▸ rfl)

theorem chat_genPath (cfg : BusinessConfig) (details model_name : String)
    (gen : String → GenOutcome) (fresh : String) (mem : Mem) (message : String)
    (cido : Option String) (hist : Option (List ChatMessage)) (ctx : Option String)
    (raw : String) (hgate : (is_on_topic cfg message).1 = true)
    (hdirect : directTruthy details message = false)
    (hgen : generate_response
        (gen (create_business_prompt cfg details message (contextBlock hist ctx)))
      = some raw) :
    chat cfg details model_name gen fresh mem message cido hist ctx
      = ({ response := clean_response raw message,
           conversation_id := resolveCid fresh cido, model_used := model_name,
           tokens_used := pyWordCount (clean_response raw message) },
         memStore mem (resolveCid fresh cido) message (clean_response raw message)) := by
  unfold chat
  rcases hq : is_on_topic cfg message with ⟨b, o⟩
  rw [hq] at hgate
  subst hgate
  rcases directTruthy_false_cases hdirect with hd | hd
  · rw [hd]
    unfold chatGenerate
    dsimp only
    rw [hgen]
  · rw [hd]
    unfold chatGenerate
    dsimp only
    rw [if_pos rfl, hgen]

theorem infix_cat3 (x a y : String) : a.data <:+: (x ++ a ++ y).data :=
  ⟨x.data, y.data, by simp [String.data_append]⟩

theorem chat_escaped (cfg : BusinessConfig) (details model_name : String)
    (gen : String → GenOutcome) (fresh : String) (mem : Mem) (message : String)
    (cido : Option String) (hist : Option (List ChatMessage)) (ctx : Option String)
    (hgate : (is_on_topic cfg message).1 = true)
    (hdirect : directTruthy details message = false)
    (hgen : generate_response
        (gen (create_business_prompt cfg details message (contextBlock hist ctx)))
      = none) :
    chat cfg details model_name gen fresh mem message cido hist ctx
      = ({ response := technicalDifficulties,
           conversation_id := resolveCid fresh cido,
           model_used := ("error_handler"), tokens_used := 0 }, mem) := by
  unfold chat
  rcases hq : is_on_topic cfg message with ⟨b, o⟩
  rw [hq] at hgate
  subst hgate
  rcases directTruthy_false_cases hdirect with hd | hd
  · rw [hd]
    unfold chatGenerate
    dsimp only
    rw [hgen]
  · rw [hd]
    unfold chatGenerate
    dsimp only
    rw [if_pos rfl, hgen]

/-- Claim C1: for every message that contains some configured
restricted-topic phrase as a case-insensitive substring, chat returns a
result with model_used business_rules and zero tokens, whose response is the
redirect template instantiated with the first matching restricted phrase in
configured order, and the conversation memory is left unchanged. -/
theorem claim_C1_restricted_rejection (cfg : BusinessConfig)
    (details model_name : String) (gen : String → GenOutcome) (fresh : String)
    (mem : Mem) (message : String) (cido : Option String)
    (hist : Option (List ChatMessage)) (ctx : Option String)
    (h : ∃ t ∈ cfg.restricted_topics, (pyLower t).data <:+: (pyLower message).data) :
    (chat cfg details model_name gen fresh mem message cido hist ctx).1.model_used
        = ("business_rules")
    ∧ (chat cfg details model_name gen fresh mem message cido hist ctx).1.tokens_used = 0
    ∧ (chat cfg details model_name gen fresh mem message cido hist ctx).2 = mem
    ∧ ∃ r, cfg.restricted_topics.find?
          (fun t => strIn (pyLower t) (pyLower message)) = some r
        ∧ (chat cfg details model_name gen fresh mem message cido hist ctx).1.response
            = redirectFor cfg.type r := by
  obtain ⟨t, ht, hinf⟩ := h
  have hsome : (cfg.restricted_topics.find?
      (fun t => strIn (pyLower t) (pyLower message))).isSome :=
    List.find?_isSome.mpr ⟨t, ht, (strIn_iff _ _).mpr hinf⟩
  obtain ⟨r, hr⟩ := Option.isSome_iff_exists.mp hsome
  have hq : is_on_topic cfg message = (false, some (redirectFor cfg.type r)) := by
    unfold is_on_topic
    rw [scanRestricted_eq, hr]
  rw [chat_reject cfg details model_name gen fresh mem message cido hist ctx _ hq]
  exact ⟨rfl, rfl, rfl, r, hr, rfl⟩

/-- Witness for claim C1, at the restricted-topic scenario of the spec. -/
theorem claim_C1_restricted_rejection_witness :
    (chat (load_business_config settingsHours) (settingsHours.BUSINESS_DETAILS)
        (settingsHours.MODEL_NAME) (fun _ => GenOutcome.candidates []) ("f") []
        ("Can you give me medical advice?") none none none).1.model_used
        = ("business_rules")
    ∧ (chat (load_business_config settingsHours) (settingsHours.BUSINESS_DETAILS)
        (settingsHours.MODEL_NAME) (fun _ => GenOutcome.candidates []) ("f") []
        ("Can you give me medical advice?") none none none).1.tokens_used = 0
    ∧ (chat (load_business_config settingsHours) (settingsHours.BUSINESS_DETAILS)
        (settingsHours.MODEL_NAME) (fun _ => GenOutcome.candidates []) ("f") []
        ("Can you give me medical advice?") none none none).2 = []
    ∧ ∃ r, (load_business_config settingsHours).restricted_topics.find?
          (fun t => strIn (pyLower t) (pyLower ("Can you give me medical advice?")))
          = some r
        ∧ (chat (load_business_config settingsHours) (settingsHours.BUSINESS_DETAILS)
            (settingsHours.MODEL_NAME) (fun _ => GenOutcome.candidates []) ("f") []
            ("Can you give me medical advice?") none none none).1.response
            = redirectFor (load_business_config settingsHours).type r :=
  claim_C1_restricted_rejection (load_business_config settingsHours)
    (settingsHours.BUSINESS_DETAILS) (settingsHours.MODEL_NAME)
    (fun _ => GenOutcome.candidates []) ("f") []
    ("Can you give me medical advice?") none none none
    ⟨("medical advice"), by decide, (strIn_iff _ _).mp (by decide)⟩

theorem runChats_history (cfg : BusinessConfig)
    (details model_name fresh cid : String) (hcid : cid ≠ ("")) :
    ∀ (calls : List GenCall) (mem : Mem) (A : List ChatMessage),
      (∀ c ∈ calls, successfulGen cfg details c) →
      (memGet mem cid).getD [] = lastN 10 A →
      (memGet (runChats cfg details model_name fresh cid mem calls) cid).getD []
        = lastN 10 (A ++ ((calls.map (turnPair cfg details)).flatten)) := by
  intro calls
  induction calls with
  | nil =>
    intro mem A hall hmem
    simpa [runChats] using hmem
  | cons c rest ih =>
    intro mem A hall hmem
    obtain ⟨hgate, hdirect, hraw⟩ := hall c (List.mem_cons_self _ _)
    obtain ⟨raw, hraw'⟩ := Option.isSome_iff_exists.mp hraw
    have hgen : generate_response
        (c.gen (create_business_prompt cfg details c.message
          (contextBlock c.conversation_history c.context))) = some raw := hraw'
    have hres : resolveCid fresh (some cid) = cid := by
      simp [resolveCid, hcid]
    have hclean : cleanedOf cfg details c = clean_response raw c.message := by
      unfold cleanedOf rawOf promptOf
      rw [hgen]
      rfl
    have hstep : (chat cfg details model_name c.gen fresh mem c.message (some cid)
        c.conversation_history c.context).2
        = memStore mem cid c.message (clean_response raw c.message) := by
      rw [chat_genPath cfg details model_name c.gen fresh mem c.message (some cid)
        c.conversation_history c.context raw hgate hdirect hgen, hres]
    have hmem' : (memGet (memStore mem cid c.message (clean_response raw c.message))
        cid).getD [] = lastN 10 (A ++ turnPair cfg details c) := by
      unfold memStore
      dsimp only
      rw [memGet_memSet_self, Option.getD_some, capTurns_eq_lastN, hmem, lastN_append]
      unfold turnPair
      rw [hclean]
    have hrun : runChats cfg details model_name fresh cid mem (c :: rest)
        = runChats cfg details model_name fresh cid
            (memStore mem cid c.message (clean_response raw c.message)) rest := by
      unfold runChats
      rw [List.foldl_cons, hstep]
    rw [hrun, ih _ _ (fun x hx => hall x (List.mem_cons_of_mem _ hx)) hmem',
      List.map_cons, List.flatten_cons, List.append_assoc]

/-- Claim C2: after any number of successful generation-path chat calls for a
single conversation id, the stored history equals the last ten of all
appended turns in their original append order (so FIFO eviction from the
front after each user-plus-assistant append), and in particular its length
never exceeds ten. -/
theorem claim_C2_history_bound (cfg : BusinessConfig)
    (details model_name fresh cid : String) (hcid : cid ≠ (""))
    (calls : List GenCall)
    (hall : ∀ c ∈ calls, successfulGen cfg details c) :
    get_conversation_history
        (runChats cfg details model_name fresh cid [] calls) cid
      = lastN 10 ((calls.map (turnPair cfg details)).flatten)
    ∧ (get_conversation_history
        (runChats cfg details model_name fresh cid [] calls) cid).length ≤ 10 := by
  have h0 : (memGet ([] : Mem) cid).getD [] = lastN 10 ([] : List ChatMessage) := rfl
  have h := runChats_history cfg details model_name fresh cid hcid calls [] [] hall h0
  rw [List.nil_append] at h
  refine ⟨h, ?_⟩
  have hg : get_conversation_history
      (runChats cfg details model_name fresh cid [] calls) cid
      = lastN 10 ((calls.map (turnPair cfg details)).flatten) := h
  rw [hg]
  exact lastN_length_le _ _

/-- Witness for claim C2: six successful generation calls, twelve turns
appended, ten retained. -/
theorem claim_C2_history_bound_witness :
    get_conversation_history
        (runChats cfgSmall ("") ("m") ("f") ("c1") [] (List.replicate 6 callOk)) ("c1")
      = lastN 10 (((List.replicate 6 callOk).map (turnPair cfgSmall (""))).flatten)
    ∧ (get_conversation_history
        (runChats cfgSmall ("") ("m") ("f") ("c1") [] (List.replicate 6 callOk))
        ("c1")).length ≤ 10 :=
  claim_C2_history_bound cfgSmall ("") ("m") ("f") ("c1") (by decide)
    (List.replicate 6 callOk)
    (by
      intro c hc
      rw [List.eq_of_mem_replicate hc]
      exact ⟨rfl, rfl, rfl⟩)

/-- Claim C3 (amended): on the generation path, a failure that escapes the
generator and reaches the orchestrator handler is converted into the
error-handler result with the canned apology, zero tokens, and untouched
memory, and chat returns normally; a failure inside the model invocation is
caught by the generator itself and becomes the canned apology STRING, which
then flows through the normal path, so that result carries the model name
and the conversation memory IS updated. -/
theorem claim_C3_failure_handling (cfg : BusinessConfig)
    (details model_name fresh : String) (mem : Mem) (message : String)
    (cido : Option String) (hist : Option (List ChatMessage)) (ctx : Option String)
    (hgate : (is_on_topic cfg message).1 = true)
    (hdirect : directTruthy details message = false) :
    (∀ gen : String → GenOutcome,
      gen (create_business_prompt cfg details message (contextBlock hist ctx))
          = GenOutcome.escaped →
      chat cfg details model_name gen fresh mem message cido hist ctx
        = ({ response := technicalDifficulties,
             conversation_id := resolveCid fresh cido,
             model_used := ("error_handler"), tokens_used := 0 }, mem))
    ∧ generate_response GenOutcome.failure = some troubleProcessing
    ∧ (∀ gen : String → GenOutcome,
      gen (create_business_prompt cfg details message (contextBlock hist ctx))
          = GenOutcome.failure →
      (chat cfg details model_name gen fresh mem message cido hist ctx).1.model_used
          = model_name
      ∧ (chat cfg details model_name gen fresh mem message cido hist ctx).2
          = memStore mem (resolveCid fresh cido) message
              (clean_response troubleProcessing message)) := by
  refine ⟨?_, rfl, ?_⟩
  · intro gen hg
    apply chat_escaped cfg details model_name gen fresh mem message cido hist ctx
      hgate hdirect
    rw [hg]
    rfl
  · intro gen hg
    have hgen : generate_response
        (gen (create_business_prompt cfg details message (contextBlock hist ctx)))
        = some troubleProcessing := by
      rw [hg]
      rfl
    rw [chat_genPath cfg details model_name gen fresh mem message cido hist ctx
      troubleProcessing hgate hdirect hgen]
    exact ⟨rfl, rfl⟩

/-- Witness for claim C3 at a concrete generation-path input, instantiated
once with an escaping failure and once with a generator-internal failure. -/
theorem claim_C3_failure_handling_witness :
    chat cfgSmall ("") ("m") (fun _ => GenOutcome.escaped) ("f") [] ("qq")
        (some ("c1")) none none
      = ({ response := technicalDifficulties, conversation_id := ("c1"),
           model_used := ("error_handler"), tokens_used := 0 }, [])
    ∧ generate_response GenOutcome.failure = some troubleProcessing
    ∧ (chat cfgSmall ("") ("m") (fun _ => GenOutcome.failure) ("f") [] ("qq")
        (some ("c1")) none none).1.model_used = ("m")
    ∧ (chat cfgSmall ("") ("m") (fun _ => GenOutcome.failure) ("f") [] ("qq")
        (some ("c1")) none none).2
      = memStore [] ("c1") ("qq") (clean_response troubleProcessing ("qq")) := by
  have h := claim_C3_failure_handling cfgSmall ("") ("m") ("f") [] ("qq")
    (some ("c1")) none none rfl rfl
  exact ⟨h.1 (fun _ => GenOutcome.escaped) rfl, h.2.1,
    (h.2.2 (fun _ => GenOutcome.failure) rfl).1,
    (h.2.2 (fun _ => GenOutcome.failure) rfl).2⟩

/-- Counterexample to claim C3 as stated: an exception raised inside the
model invocation is a failure arising during generation, yet the resulting
ChatResult is NOT the error-handler result: it carries the model name, its
token count is non-zero, and the conversation memory IS updated. -/
theorem claim_C3_failure_handling_counterexample :
    (chat cfgSmall ("") ("m") (fun _ => GenOutcome.failure) ("f") [] ("qq")
        (some ("c1")) none none).1.model_used = ("m")
    ∧ ¬ ((chat cfgSmall ("") ("m") (fun _ => GenOutcome.failure) ("f") [] ("qq")
        (some ("c1")) none none).1.model_used = ("error_handler"))
    ∧ (chat cfgSmall ("") ("m") (fun _ => GenOutcome.failure) ("f") [] ("qq")
        (some ("c1")) none none).1.tokens_used = 11
    ∧ ¬ ((chat cfgSmall ("") ("m") (fun _ => GenOutcome.failure) ("f") [] ("qq")
        (some ("c1")) none none).2 = []) := by
  decide

/-- Claim C4 (amended): for every message that passes the topic gate and for
which the fact extractor produces an answer (keyword matched with its anchor
present), chat returns model_used business_knowledge, the extracted answer
as the response, tokens_used equal to the whitespace word count of that
response, and the conversation memory is not updated. -/
theorem claim_C4_direct_answer (cfg : BusinessConfig)
    (details model_name : String) (gen : String → GenOutcome) (fresh : String)
    (mem : Mem) (message : String) (cido : Option String)
    (hist : Option (List ChatMessage)) (ctx : Option String) (d : String)
    (hgate : (is_on_topic cfg message).1 = true)
    (hd : get_direct_answer details message = some d) :
    (chat cfg details model_name gen fresh mem message cido hist ctx).1.model_used
        = ("business_knowledge")
    ∧ (chat cfg details model_name gen fresh mem message cido hist ctx).1.response = d
    ∧ (chat cfg details model_name gen fresh mem message cido hist ctx).1.tokens_used
        = pyWordCount ((chat cfg details model_name gen fresh mem message cido
            hist ctx).1.response)
    ∧ (chat cfg details model_name gen fresh mem message cido hist ctx).2 = mem := by
  have hne := get_direct_answer_ne_empty hd
  rw [chat_direct cfg details model_name gen fresh mem message cido hist ctx d
    hgate hd hne]
  exact ⟨rfl, rfl, rfl, rfl⟩

/-- Witness for claim C4 at a concrete hours question. -/
theorem claim_C4_direct_answer_witness :
    (chat cfgSmall ("Hours: 9-5.") ("m") (fun _ => GenOutcome.candidates [])
        ("f") [] ("hours") none none none).1.model_used = ("business_knowledge")
    ∧ (chat cfgSmall ("Hours: 9-5.") ("m") (fun _ => GenOutcome.candidates [])
        ("f") [] ("hours") none none none).1.response
        = ("Our Hours: 9-5. Is there anything else you\x27d like to know?")
    ∧ (chat cfgSmall ("Hours: 9-5.") ("m") (fun _ => GenOutcome.candidates [])
        ("f") [] ("hours") none none none).1.tokens_used
        = pyWordCount ((chat cfgSmall ("Hours: 9-5.") ("m")
            (fun _ => GenOutcome.candidates []) ("f") [] ("hours")
            none none none).1.response)
    ∧ (chat cfgSmall ("Hours: 9-5.") ("m") (fun _ => GenOutcome.candidates [])
        ("f") [] ("hours") none none none).2 = [] :=
  claim_C4_direct_answer cfgSmall ("Hours: 9-5.") ("m")
    (fun _ => GenOutcome.candidates []) ("f") [] ("hours") none none none
    ("Our Hours: 9-5. Is there anything else you\x27d like to know?")
    (by decide) (by decide)

/-- Counterexample to claim C4 as stated: a message that matches a
fact-extractor keyword with its anchor present in the details blob, but that
also contains a restricted phrase; the gate fires first, so chat returns
business_rules rather than business_knowledge. -/
theorem claim_C4_direct_answer_counterexample :
    (get_direct_answer (settingsHours.BUSINESS_DETAILS)
        ("what time do you open for medical advice")).isSome = true
    ∧ (chat (load_business_config settingsHours) (settingsHours.BUSINESS_DETAILS)
        (settingsHours.MODEL_NAME) (fun _ => GenOutcome.candidates []) ("f") []
        ("what time do you open for medical advice") none none none).1.model_used
        = ("business_rules")
    ∧ ¬ ((chat (load_business_config settingsHours) (settingsHours.BUSINESS_DETAILS)
        (settingsHours.MODEL_NAME) (fun _ => GenOutcome.candidates []) ("f") []
        ("what time do you open for medical advice") none none none).1.model_used
        = ("business_knowledge")) := by
  decide

/-- Claim C5 (amended): the extractor equals a first-match scan of the topics
in their declared order, selecting the first topic whose keywords hit the
lower-cased message AND whose anchored branch succeeds, so a keyword hit
with an absent anchor falls through; when no topic is selected the extractor
returns none; and for the hours, pricing, shipping and returns branches the
reply embeds the details text from the anchor up to the next dot (trimmed),
for location and services it embeds that text with the 9-character anchor
label dropped, while contact uses its own comma and window bounds. -/
theorem claim_C5_extractor_structure (details message : String) :
    get_direct_answer details message
      = (patterns.find? (fun p => keywordHit (pyLower message) p.2
          && (tryTopic details p.1).isSome)).bind (fun p => tryTopic details p.1)
    ∧ (∀ message2 : String,
        (∀ p ∈ patterns, ¬ (keywordHit (pyLower message2) p.2 = true
            ∧ (tryTopic details p.1).isSome = true)) →
        get_direct_answer details message2 = none)
    ∧ (∀ a, answerHours details = some a →
        ∃ x, extractDot details ("hours:") = some x ∧ x.data <:+: a.data)
    ∧ (∀ a, answerPricing details = some a →
        ∃ x, extractDot details ("pricing:") = some x ∧ x.data <:+: a.data)
    ∧ (∀ a, answerShipping details = some a →
        ∃ x, extractDot details ("shipping:") = some x ∧ x.data <:+: a.data)
    ∧ (∀ a, answerReturns details = some a →
        ∃ x, extractDot details ("return") = some x ∧ x.data <:+: a.data)
    ∧ (∀ a, answerLocation details = some a →
        ∃ x, extractDotAfter details ("location:") 9 = some x ∧ x.data <:+: a.data)
    ∧ (∀ a, answerServices details = some a →
        ∃ x, extractDotAfter details ("services:") 9 = some x ∧ x.data <:+: a.data) := by
  refine ⟨?_, ?_, ?_, ?_, ?_, ?_, ?_, ?_⟩
  · unfold get_direct_answer
    exact scanTopics_eq _ _ _
  · intro m2 hnone
    unfold get_direct_answer
    rw [scanTopics_eq]
    have hfind : patterns.find?
        (fun p => keywordHit (pyLower m2) p.2 && (tryTopic details p.1).isSome)
        = none := by
      rw [List.find?_eq_none]
      intro p hp hpred
      rw [Bool.and_eq_true] at hpred
      exact hnone p hp hpred
    rw [hfind]
    rfl
  · intro a h
    unfold answerHours at h
    split at h
    next start heq =>
      injection h with h'
      refine ⟨pyStrip (pySlice details start (dotEnd details start)), ?_, ?_⟩
      · unfold extractDot
        rw [heq]
        rfl
      · rw [← h']
        exact infix_cat3 _ _ _
    next => exact Option.noConfusion h
  · intro a h
    unfold answerPricing at h
    split at h
    next start heq =>
      injection h with h'
      refine ⟨pyStrip (pySlice details start (dotEnd details start)), ?_, ?_⟩
      · unfold extractDot
        rw [heq]
        rfl
      · rw [← h']
        exact infix_cat3 _ _ _
    next => exact Option.noConfusion h
  · intro a h
    unfold answerShipping at h
    split at h
    next start heq =>
      injection h with h'
      refine ⟨pyStrip (pySlice details start (dotEnd details start)), ?_, ?_⟩
      · unfold extractDot
        rw [heq]
        rfl
      · rw [← h']
        exact infix_cat3 _ _ _
    next => exact Option.noConfusion h
  · intro a h
    unfold answerReturns at h
    split at h
    next start heq =>
      injection h with h'
      refine ⟨pyStrip (pySlice details start (dotEnd details start)), ?_, ?_⟩
      · unfold extractDot
        rw [heq]
        rfl
      · rw [← h']
        exact infix_cat3 _ _ _
    next => exact Option.noConfusion h
  · intro a h
    unfold answerLocation at h
    split at h
    next start heq =>
      injection h with h'
      refine ⟨pyStrip (pySlice details (start + 9) (dotEnd details start)), ?_, ?_⟩
      · unfold extractDotAfter
        rw [heq]
        rfl
      · rw [← h']
        exact infix_cat3 _ _ _
    next => exact Option.noConfusion h
  · intro a h
    unfold answerServices at h
    split at h
    next start heq =>
      injection h with h'
      refine ⟨pyStrip (pySlice details (start + 9) (dotEnd details start)), ?_, ?_⟩
      · unfold extractDotAfter
        rw [heq]
        rfl
      · rw [← h']
        exact infix_cat3 _ _ _
    next => exact Option.noConfusion h

/-- Witness for claim C5, instantiated on a details blob containing every
anchor. -/
theorem claim_C5_extractor_structure_witness :
    get_direct_answer detailsAll ("hours")
      = (patterns.find? (fun p => keywordHit (pyLower ("hours")) p.2
          && (tryTopic detailsAll p.1).isSome)).bind (fun p => tryTopic detailsAll p.1)
    ∧ get_direct_answer detailsAll ("zz") = none
    ∧ (∃ x, extractDot detailsAll ("hours:") = some x
        ∧ x.data <:+: (("Our Hours: h. Is there anything else you\x27d like to know?") : String).data)
    ∧ (∃ x, extractDot detailsAll ("pricing:") = some x
        ∧ x.data <:+: (("Our Pricing: p. Would you like more details on any specific plan?") : String).data)
    ∧ (∃ x, extractDot detailsAll ("shipping:") = some x
        ∧ x.data <:+: (("Regarding Shipping: s. Can I help you with anything else?") : String).data)
    ∧ (∃ x, extractDot detailsAll ("return") = some x
        ∧ x.data <:+: (("Our return policy: return r. Let me know if you have questions!") : String).data)
    ∧ (∃ x, extractDotAfter detailsAll ("location:") 9 = some x
        ∧ x.data <:+: (("We\x27re located at: x. Feel free to visit us!") : String).data)
    ∧ (∃ x, extractDotAfter detailsAll ("services:") 9 = some x
        ∧ x.data <:+: (("We v. What can I help you with today?") : String).data) := by
  have h := claim_C5_extractor_structure detailsAll ("hours")
  exact ⟨h.1, h.2.1 ("zz") (by decide),
    h.2.2.1 _ (by decide), h.2.2.2.1 _ (by decide), h.2.2.2.2.1 _ (by decide),
    h.2.2.2.2.2.1 _ (by decide), h.2.2.2.2.2.2.1 _ (by decide),
    h.2.2.2.2.2.2.2 _ (by decide)⟩

/-- Counterexample to claim C5 as stated: for the contact topic the anchor is
present and matched, yet the reply does not embed the details text from the
anchor up to the next dot; the phone fragment is cut at the comma instead. -/
theorem claim_C5_extractor_structure_counterexample :
    get_direct_answer ("Phone 555-1234, Fax 9. X") ("call")
        = some ("You can reach us at: Phone 555-1234. We\x27re here to help!")
    ∧ extractDot ("Phone 555-1234, Fax 9. X") ("phone")
        = some ("Phone 555-1234, Fax 9")
    ∧ ¬ ((("Phone 555-1234, Fax 9") : String).data
        <:+: (("You can reach us at: Phone 555-1234. We\x27re here to help!") : String).data) := by
  decide

/-- Claim C6 (amended): for the message about business hours with the details
blob containing the text Hours: 9am-6pm Mon-Fri followed by a dot, the chat
response begins with that text in its original capitalization, prefixed by
the word Our: it starts with Our Hours: 9am-6pm Mon-Fri. -/
theorem claim_C6_hours_scenario :
    (("Our Hours: 9am-6pm Mon-Fri") : String).data.isPrefixOf
      ((chat (load_business_config settingsHours) (settingsHours.BUSINESS_DETAILS)
        (settingsHours.MODEL_NAME) (fun _ => GenOutcome.candidates []) ("f") []
        ("What are your business hours?") none none none).1.response).data = true := by
  decide

/-- Counterexample to claim C6 as stated: the response does not begin with
the lower-case rendering Our hours: 9am-6pm Mon-Fri, because the source
slices the details blob in its original case. -/
theorem claim_C6_hours_scenario_counterexample :
    (("Our hours: 9am-6pm Mon-Fri") : String).data.isPrefixOf
      ((chat (load_business_config settingsHours) (settingsHours.BUSINESS_DETAILS)
        (settingsHours.MODEL_NAME) (fun _ => GenOutcome.candidates []) ("f") []
        ("What are your business hours?") none none none).1.response).data = false := by
  decide

theorem cleanStep3_ne_empty (s : String) : cleanStep3 s ≠ ("") := by
  unfold cleanStep3
  split
  · decide
  · assumption

theorem cleanStep4_ne_empty (s : String) (hs : s ≠ ("")) : cleanStep4 s ≠ ("") := by
  unfold cleanStep4
  split
  · rw [string_ne_empty_iff, String.data_append]
    intro hdata
    exact absurd (List.append_eq_nil.mp hdata).2 (by decide)
  · exact hs

theorem cleanStep4_length_le (s : String) : (cleanStep4 s).data.length ≤ 503 := by
  unfold cleanStep4
  split
  · next h =>
    rw [String.data_append, List.length_append]
    have h3 : (("...") : String).data.length = 3 := rfl
    have ht : ((⟨List.take 500 s.data⟩ : String)).data.length ≤ 500 := by
      show (List.take 500 s.data).length ≤ 500
      rw [List.length_take]
      omega
    omega
  · next h => omega

/-- Claim C7 (amended): for every NON-EMPTY raw model output, the cleaner is
exactly the composition of the four steps in order (remove echoed message,
strip role labels, substitute the canned fallback on empty, truncate to 500
characters with an ellipsis); an empty raw output instead short-circuits to
a canned rephrase prompt; and in all cases the result is a non-empty string
of at most 500 characters plus the 3-character ellipsis. -/
theorem claim_C7_cleaner (raw msg : String) :
    (raw ≠ ("") →
      clean_response raw msg = cleanStep4 (cleanStep3 (cleanStep2 (cleanStep1 raw msg))))
    ∧ (raw = ("") → clean_response raw msg = rephraseFallback)
    ∧ clean_response raw msg ≠ ("")
    ∧ (clean_response raw msg).data.length ≤ 503 := by
  refine ⟨?_, ?_, ?_, ?_⟩
  · intro hraw
    unfold clean_response
    rw [if_neg hraw]
  · intro hraw
    unfold clean_response
    rw [if_pos hraw]
  · unfold clean_response
    split
    · decide
    · exact cleanStep4_ne_empty _ (cleanStep3_ne_empty _)
  · unfold clean_response
    split
    · decide
    · exact cleanStep4_length_le _

/-- Witness for claim C7 on a concrete raw output that echoes the message and
carries a role label. -/
theorem claim_C7_cleaner_witness :
    clean_response ("ASSISTANT: hi there") ("hi")
        = cleanStep4 (cleanStep3 (cleanStep2 (cleanStep1 ("ASSISTANT: hi there") ("hi"))))
    ∧ clean_response ("") ("hi") = rephraseFallback
    ∧ clean_response ("ASSISTANT: hi there") ("hi") ≠ ("")
    ∧ (clean_response ("ASSISTANT: hi there") ("hi")).data.length ≤ 503 := by
  have h1 := claim_C7_cleaner ("ASSISTANT: hi there") ("hi")
  have h2 := claim_C7_cleaner ("") ("hi")
  exact ⟨h1.1 (by decide), h2.2.1 rfl, h1.2.2.1, h1.2.2.2⟩

/-- Counterexample to claim C7 as stated: on an empty raw output the cleaner
does not apply the four steps; it returns the rephrase prompt, while the
step composition would return the other canned fallback. -/
theorem claim_C7_cleaner_counterexample :
    clean_response ("") ("x") = rephraseFallback
    ∧ cleanStep4 (cleanStep3 (cleanStep2 (cleanStep1 ("") ("x")))) = understandFallback
    ∧ ¬ (clean_response ("") ("x")
        = cleanStep4 (cleanStep3 (cleanStep2 (cleanStep1 ("") ("x"))))) := by
  decide

/-- Claim C8 (amended): the conversation_id of every ChatResult is the
NON-EMPTY string supplied by the caller, and is the freshly generated
identifier exactly when the caller supplied none or the empty string (the
source tests Python falsiness, so an empty supplied id is regenerated). -/
theorem claim_C8_conversation_id (cfg : BusinessConfig)
    (details model_name : String) (gen : String → GenOutcome) (fresh : String)
    (mem : Mem) (message : String) (hist : Option (List ChatMessage))
    (ctx : Option String) :
    (∀ s : String, s ≠ ("") →
      (chat cfg details model_name gen fresh mem message (some s) hist
        ctx).1.conversation_id = s)
    ∧ (chat cfg details model_name gen fresh mem message none hist
        ctx).1.conversation_id = fresh
    ∧ (chat cfg details model_name gen fresh mem message (some ("")) hist
        ctx).1.conversation_id = fresh := by
  refine ⟨?_, ?_, ?_⟩
  · intro s hs
    rw [chat_cid]
    simp [resolveCid, hs]
  · rw [chat_cid]
    rfl
  · rw [chat_cid]
    rfl

/-- Witness for claim C8 at concrete inputs. -/
theorem claim_C8_conversation_id_witness :
    (chat cfgSmall ("") ("m") (fun _ => GenOutcome.candidates [("ok")]) ("f") []
        ("hi") (some ("abc")) none none).1.conversation_id = ("abc")
    ∧ (chat cfgSmall ("") ("m") (fun _ => GenOutcome.candidates [("ok")]) ("f") []
        ("hi") none none none).1.conversation_id = ("f")
    ∧ (chat cfgSmall ("") ("m") (fun _ => GenOutcome.candidates [("ok")]) ("f") []
        ("hi") (some ("")) none none).1.conversation_id = ("f") := by
  have h := claim_C8_conversation_id cfgSmall ("") ("m")
    (fun _ => GenOutcome.candidates [("ok")]) ("f") [] ("hi") none none
  exact ⟨h.1 ("abc") (by decide), h.2.1, h.2.2⟩

/-- Counterexample to claim C8 as stated: when the caller supplies the empty
string, the returned conversation_id is neither the supplied string nor
covered by the none case; the source regenerates it. -/
theorem claim_C8_conversation_id_counterexample :
    (chat cfgSmall ("") ("m") (fun _ => GenOutcome.candidates [("ok")])
        ("fresh-uuid") [] ("hi") (some ("")) none none).1.conversation_id
        = ("fresh-uuid")
    ∧ ¬ ((chat cfgSmall ("") ("m") (fun _ => GenOutcome.candidates [("ok")])
        ("fresh-uuid") [] ("hi") (some ("")) none none).1.conversation_id
        = ("")) := by
  decide

/-- Claim C9: get on an id never appended to returns the empty sequence
rather than raising; clear on an unknown id is a no-op; and clear followed
by get returns the empty sequence, both for an arbitrary (possibly
populated) id and for an unknown one. -/
theorem claim_C9_store_operations (mem : Mem) (idA idB : String)
    (h : memGet mem idB = none) :
    get_conversation_history mem idB = []
    ∧ clear_conversation mem idB = mem
    ∧ get_conversation_history (clear_conversation mem idA) idA = []
    ∧ get_conversation_history (clear_conversation mem idB) idB = [] := by
  have hclear : clear_conversation mem idB = mem := by
    unfold clear_conversation
    rw [h]
    rfl
  refine ⟨?_, hclear, ?_, ?_⟩
  · unfold get_conversation_history
    rw [h]
    rfl
  · unfold clear_conversation
    by_cases hA : (memGet mem idA).isSome
    · rw [if_pos hA]
      unfold get_conversation_history
      rw [memGet_memDel_self]
      rfl
    · rw [if_neg hA]
      unfold get_conversation_history
      cases hg : memGet mem idA with
      | none => rfl
      | some v =>
        rw [hg] at hA
        exact absurd rfl hA
  · rw [hclear]
    unfold get_conversation_history
    rw [h]
    rfl

/-- Witness for claim C9 on a store holding one conversation. -/
theorem claim_C9_store_operations_witness :
    get_conversation_history [(("a"), [{ role := ("user"), content := ("x") }])] ("b") = []
    ∧ clear_conversation [(("a"), [{ role := ("user"), content := ("x") }])] ("b")
        = [(("a"), [{ role := ("user"), content := ("x") }])]
    ∧ get_conversation_history
        (clear_conversation [(("a"), [{ role := ("user"), content := ("x") }])] ("a"))
        ("a") = []
    ∧ get_conversation_history
        (clear_conversation [(("a"), [{ role := ("user"), content := ("x") }])] ("b"))
        ("b") = [] :=
  claim_C9_store_operations [(("a"), [{ role := ("user"), content := ("x") }])]
    ("a") ("b") (by decide)

/-- Claim C10: on the successful generation path (gate passed, no truthy
direct answer, no escaping failure), the response field is exactly the
cleaned model output, and tokens_used is the whitespace word count of that
response. -/
theorem claim_C10_generation_tokens (cfg : BusinessConfig)
    (details model_name : String) (gen : String → GenOutcome) (fresh : String)
    (mem : Mem) (message : String) (cido : Option String)
    (hist : Option (List ChatMessage)) (ctx : Option String) (raw : String)
    (hgate : (is_on_topic cfg message).1 = true)
    (hdirect : directTruthy details message = false)
    (hgen : generate_response
        (gen (create_business_prompt cfg details message (contextBlock hist ctx)))
      = some raw) :
    (chat cfg details model_name gen fresh mem message cido hist ctx).1.response
        = clean_response raw message
    ∧ (chat cfg details model_name gen fresh mem message cido hist ctx).1.tokens_used
        = pyWordCount ((chat cfg details model_name gen fresh mem message cido
            hist ctx).1.response)
    ∧ (chat cfg details model_name gen fresh mem message cido hist ctx).1.model_used
        = model_name := by
  rw [chat_genPath cfg details model_name gen fresh mem message cido hist ctx
    raw hgate hdirect hgen]
  exact ⟨rfl, rfl, rfl⟩

/-- Witness for claim C10 on a concrete one-candidate generation. -/
theorem claim_C10_generation_tokens_witness :
    (chat cfgSmall ("") ("m") (fun _ => GenOutcome.candidates [("Sure thing!")])
        ("f") [] ("qq") none none none).1.response
        = clean_response ("Sure thing!") ("qq")
    ∧ (chat cfgSmall ("") ("m") (fun _ => GenOutcome.candidates [("Sure thing!")])
        ("f") [] ("qq") none none none).1.tokens_used
        = pyWordCount ((chat cfgSmall ("") ("m")
            (fun _ => GenOutcome.candidates [("Sure thing!")]) ("f") [] ("qq")
            none none none).1.response)
    ∧ (chat cfgSmall ("") ("m") (fun _ => GenOutcome.candidates [("Sure thing!")])
        ("f") [] ("qq") none none none).1.model_used = ("m") :=
  claim_C10_generation_tokens cfgSmall ("") ("m")
    (fun _ => GenOutcome.candidates [("Sure thing!")]) ("f") [] ("qq") none none
    none ("Sure thing!") (by decide) (by decide) rfl
